import Mathlib

/-!
Verification of the Type & Entity Resolution Engine of the agentic-kg
repository (shallow embedding of the Python sources in
`src/akg/agents/coreference_resolver.py`, `src/akg/agents/extraction.py`,
`src/akg/agents/type_manager.py` and `src/akg/database/neo4j_manager.py`).

Python strings are modelled as Lean `String`, floats as `ℚ`, dictionaries
as association lists in source order, and the Neo4j store as explicit
lists of entity / edge records.
-/

/-! ## Python string primitives (ASCII fragment used by the sources) -/

/-- Python `str.lower` on one character (ASCII letters only, which is all
the sources use). -/
def lowerChar (c : Char) : Char :=
  if 65 ≤ c.toNat ∧ c.toNat ≤ 90 then Char.ofNat (c.toNat + 32) else c

/-- Python `str.lower` on a string. -/
def lowerStr (s : String) : String :=
  String.mk (s.data.map lowerChar)

/-- Python `str.upper` on one character (ASCII). -/
def upperChar (c : Char) : Char :=
  if 97 ≤ c.toNat ∧ c.toNat ≤ 122 then Char.ofNat (c.toNat - 32) else c

/-- Python `str.upper` on a string. -/
def upperStr (s : String) : String :=
  String.mk (s.data.map upperChar)

/-- Characters stripped by Python `str.strip()` with no argument. -/
def isPyWs (c : Char) : Bool :=
  c == ' ' || c == '\t' || c == '\n' || c == '\r' || c == '\x0b' || c == '\x0c'

/-- Python `str.strip()` on a character list. -/
def pyStripList (l : List Char) : List Char :=
  ((l.dropWhile isPyWs).reverse.dropWhile isPyWs).reverse

/-- Python `str.strip()` on a string. -/
def pyStrip (s : String) : String :=
  String.mk (pyStripList s.data)

/-- Whether `n` is a prefix of `h` (helper for substring search). -/
def listStarts : List Char → List Char → Bool
  | [], _ => true
  | _ :: _, [] => false
  | a :: as, b :: bs => a == b && listStarts as bs

/-- Python substring containment `needle in hay` on character lists. -/
def subOccurs : List Char → List Char → Bool
  | n, [] => listStarts n []
  | n, c :: t => listStarts n (c :: t) || subOccurs n t

/-- Python substring containment `needle in hay` on strings. -/
def strIn (needle hay : String) : Bool :=
  subOccurs needle.data hay.data

/-- Helper for Python `str.split()`: accumulates the current word. -/
def pySplitAux : List Char → List Char → List (List Char)
  | [], cur => if cur.isEmpty then [] else [cur.reverse]
  | c :: t, cur =>
    if isPyWs c then
      (if cur.isEmpty then pySplitAux t [] else cur.reverse :: pySplitAux t [])
    else pySplitAux t (c :: cur)

/-- Python `str.split()` with no argument (split on whitespace runs,
dropping empty fields). -/
def pySplit (s : String) : List (List Char) :=
  pySplitAux s.data []

/-- Python `value.replace(" ", "_").replace("-", "_")` on one character. -/
def underscoreChar (c : Char) : Char :=
  if c == ' ' || c == '-' then '_' else c

/-! ## difflib.SequenceMatcher ratio

`TypeManager._calculate_similarity` (type_manager.py:44-46) is
`SequenceMatcher(None, a.lower(), b.lower()).ratio()`.  With no junk and
inputs far below the autojunk limit, `ratio` is `2*M/T` where `M` is the
total size of the matching blocks and `T` the combined length.  A
matching block is found recursively: the longest common block (earliest
start in `a`, then earliest start in `b`, per the difflib contract), then
recursion on both sides. -/

/-- Length of the longest common prefix of two character lists. -/
def commonLen : List Char → List Char → Nat
  | a :: as, b :: bs => if a == b then commonLen as bs + 1 else 0
  | _, _ => 0

/-- Size of the matching block starting at positions `i`, `j`, capped by
the search window ends `ahi`, `bhi`. -/
def blockLenAt (a b : List Char) (i j ahi bhi : Nat) : Nat :=
  min (commonLen (a.drop i) (b.drop j)) (min (ahi - i) (bhi - j))

/-- Candidate start pairs of the search window, ascending in `i` then `j`. -/
def flmCandidates (alo ahi blo bhi : Nat) : List (Nat × Nat) :=
  (List.range' alo (ahi - alo)).flatMap fun i =>
    (List.range' blo (bhi - blo)).map fun j => (i, j)

/-- Pick the first candidate with strictly larger block size (so the
earliest maximal block wins, matching the difflib contract). -/
def flmStep (best c : Nat × Nat × Nat) : Nat × Nat × Nat :=
  if best.2.2 < c.2.2 then c else best

/-- Longest matching block of `a[alo:ahi]` and `b[blo:bhi]`: the maximal
block, earliest in `a`, then earliest in `b` (difflib
`find_longest_match`). -/
def findLongestBlock (a b : List Char) (alo ahi blo bhi : Nat) : Nat × Nat × Nat :=
  ((flmCandidates alo ahi blo bhi).map
    (fun p => (p.1, p.2, blockLenAt a b p.1 p.2 ahi bhi))).foldl flmStep (alo, blo, 0)

/-- Total size of all matching blocks (difflib `get_matching_blocks`
recursion), with fuel for termination. -/
def matchTotal (a b : List Char) : Nat → Nat → Nat → Nat → Nat → Nat
  | 0, _, _, _, _ => 0
  | fuel + 1, alo, ahi, blo, bhi =>
    let (i, j, k) := findLongestBlock a b alo ahi blo bhi
    if k = 0 then 0
    else matchTotal a b fuel alo i blo j + k + matchTotal a b fuel (i + k) ahi (j + k) bhi

/-- difflib `SequenceMatcher(None, a, b).ratio()` as an exact rational:
`2*M/T`, and `1.0` when both strings are empty. -/
def ratioQ (a b : String) : ℚ :=
  let la := a.data.length
  let lb := b.data.length
  if la + lb = 0 then 1
  else (2 * matchTotal a.data b.data (la + lb + 1) 0 la 0 lb : ℚ) / (la + lb : ℚ)

/-! ## TypeManager (src/akg/agents/type_manager.py)

The in-memory type cache (a Python set) is modelled as a `List String`;
new labels are inserted at the head.  The similarity threshold (0.8 by
default) is kept as an explicit rational parameter. -/

/-- `TypeManager._calculate_similarity` (type_manager.py:44-46):
`SequenceMatcher(None, str1.lower(), str2.lower()).ratio()`. -/
def calculateSimilarity (str1 str2 : String) : ℚ :=
  ratioQ (lowerStr str1) (lowerStr str2)

/-- Stable descending insertion by score (Python `list.sort` with
`reverse=True` is stable, so equal scores keep their original order). -/
def insertDescBySim (x : String × ℚ) : List (String × ℚ) → List (String × ℚ)
  | [] => [x]
  | y :: ys => if y.2 < x.2 then x :: y :: ys else y :: insertDescBySim x ys

/-- Stable sort, highest score first (type_manager.py:59). -/
def sortDescBySim (l : List (String × ℚ)) : List (String × ℚ) :=
  l.foldl (fun acc x => insertDescBySim x acc) []

/-- `TypeManager._find_similar_types` (type_manager.py:48-60): all cached
labels whose similarity to `proposed_type.lower()` reaches the threshold,
sorted by score descending. -/
def findSimilarTypes (proposedType : String) (existingTypes : List String)
    (threshold : ℚ) : List (String × ℚ) :=
  let proposedLower := lowerStr proposedType
  sortDescBySim ((existingTypes.filter
      (fun e => threshold ≤ calculateSimilarity proposedLower (lowerStr e))).map
    (fun e => (e, calculateSimilarity proposedLower (lowerStr e))))

/-- `TypeManager.resolve_entity_type` (type_manager.py:62-90), returning
`((resolved_type, is_new_type), cache_after_the_call)`.  The exact check
compares every cached label case-insensitively against
`proposed_type.lower().strip()`; otherwise the best similar label wins;
otherwise the proposed label is registered verbatim. -/
def resolveEntityType (cache : List String) (threshold : ℚ)
    (proposedType : String) : (String × Bool) × List String :=
  let proposedLower := pyStrip (lowerStr proposedType)
  match cache.find? (fun e => lowerStr e == proposedLower) with
  | some existing => ((existing, false), cache)
  | none =>
    match findSimilarTypes proposedType cache threshold with
    | (best, _) :: _ => ((best, false), cache)
    | [] => ((proposedType, true), proposedType :: cache)

/-- Python `set(list)` modelled as a list keeping the first occurrence of
each element (`seen` accumulates the elements already emitted). -/
def dedupKeepFirst : List String → List String → List String
  | [], _ => []
  | x :: xs, seen =>
    if x ∈ seen then dedupKeepFirst xs seen else x :: dedupKeepFirst xs (x :: seen)

/-- `TypeManager.refresh_type_cache` (type_manager.py:23-42): on success
the cache is assigned `set(entity_types)` fetched from the store — the
previous in-memory contents are discarded; on a fetch error the `except`
leaves the cache unchanged. -/
def refreshTypeCache (cache : List String) (fetched : Except Unit (List String)) :
    List String :=
  match fetched with
  | .error _ => cache
  | .ok types => dedupKeepFirst types []

/-- Boolean caseless-duplicate freedom of a label list. -/
def noCaselessDup : List String → Bool
  | [] => true
  | x :: xs => xs.all (fun y => lowerStr y != lowerStr x) && noCaselessDup xs

/-! ## Neo4j store model (src/akg/database/neo4j_manager.py)

Entity nodes and relationship edges are modelled as records in lists,
in creation order.  Node properties set by `create_entity` are explicit
fields; free-form extraction properties are an association list. -/

/-- An entity node as written by `Neo4jManager.create_entity`
(neo4j_manager.py:153-228).  Aliases are never persisted by that method,
so the record has no alias field. -/
structure StoredEntity where
  id : String
  name : String
  typ : String
  confidence : ℚ
  props : List (String × String)
  docId : String
deriving DecidableEq, Repr

/-- A relationship edge as written by `Neo4jManager.create_relationship`
(neo4j_manager.py:230-284). -/
structure StoredEdge where
  src : String
  tgt : String
  typ : String
  confidence : ℚ
  props : List (String × String)
  docId : String
deriving DecidableEq, Repr

/-- `Neo4jManager.get_entity_by_name_and_type` with a type argument
(neo4j_manager.py:508-550): the Cypher pattern
`(e {name: $name, type: $entity_type})` is an exact, case-sensitive
property match; `LIMIT 1` returns the first such node. -/
def getEntityByNameAndType (store : List StoredEntity) (name typ : String) :
    Option StoredEntity :=
  store.find? (fun e => e.name == name && e.typ == typ)

/-- Stable ascending insertion by name length (for Cypher
`ORDER BY size(e.name)`). -/
def insertAscByNameLen (x : StoredEntity) : List StoredEntity → List StoredEntity
  | [] => [x]
  | y :: ys =>
    if x.name.data.length < y.name.data.length then x :: y :: ys
    else y :: insertAscByNameLen x ys

/-- `Neo4jManager.find_similar_entities` (neo4j_manager.py:552-584):
nodes whose lower-cased name contains, or is contained in, the query
name, ordered by name size, `LIMIT 10`.  The returned records carry no
`similarity_score` or `match_type` key. -/
def neo4jFindSimilar (store : List StoredEntity) (name : String) :
    List StoredEntity :=
  ((store.filter (fun e =>
      strIn (lowerStr name) (lowerStr e.name) || strIn (lowerStr e.name) (lowerStr name))).foldl
    (fun acc x => insertAscByNameLen x acc) []).take 10

/-- Overwrite or add one property (Cypher `SET r.key = value`). -/
def setProp (ps : List (String × String)) (k v : String) : List (String × String) :=
  if ps.any (fun p => p.1 == k) then
    ps.map (fun p => if p.1 == k then (k, v) else p)
  else ps ++ [(k, v)]

/-- Apply a list of property setters in order. -/
def setProps (ps newPs : List (String × String)) : List (String × String) :=
  newPs.foldl (fun acc kv => setProp acc kv.1 kv.2) ps

/-- Property-key sanitization used by both create methods:
`key.replace(" ", "_").replace("-", "_")`. -/
def sanitizeKey (k : String) : String :=
  String.mk (k.data.map underscoreChar)

/-- `Neo4jManager.create_entity` (neo4j_manager.py:153-228): Cypher
`MERGE` on the node id, then `SET` of name, type, confidence, document id
and each extraction property; if no node with the id exists one is
created. -/
def createEntityDb (store : List StoredEntity) (entityId name typ : String)
    (docId : String) (props : List (String × String)) (confidence : ℚ) :
    List StoredEntity :=
  let sanitized := props.map (fun kv => (sanitizeKey kv.1, kv.2))
  if store.any (fun e => e.id == entityId) then
    store.map (fun e =>
      if e.id == entityId then
        { e with name := name, typ := typ, confidence := confidence,
                 docId := docId, props := setProps e.props sanitized }
      else e)
  else
    store ++ [{ id := entityId, name := name, typ := typ,
                confidence := confidence, props := sanitized, docId := docId }]

/-- Relationship-type cleaning in `create_relationship`
(neo4j_manager.py:255): `replace(" ", "_").replace("-", "_").upper()`. -/
def cleanRelType (t : String) : String :=
  upperStr (String.mk (t.data.map underscoreChar))

/-- `Neo4jManager.create_relationship` (neo4j_manager.py:230-284): Cypher
`MERGE (source)-[r:TYPE]->(target)` followed by `SET` of confidence,
document id and each property.  When an edge with the same source,
target and cleaned type already exists, `MERGE` matches it and the `SET`
clauses overwrite its confidence, document id and the given property
keys; otherwise a new edge is appended. -/
def createRelationshipDb (edges : List StoredEdge) (src tgt relType docId : String)
    (props : List (String × String)) (confidence : ℚ) : List StoredEdge :=
  let ct := cleanRelType relType
  let sanitized := props.map (fun kv => (sanitizeKey kv.1, kv.2))
  if edges.any (fun e => e.src == src && e.tgt == tgt && e.typ == ct) then
    edges.map (fun e =>
      if e.src == src && e.tgt == tgt && e.typ == ct then
        { e with confidence := confidence, docId := docId,
                 props := setProps e.props sanitized }
      else e)
  else
    edges ++ [{ src := src, tgt := tgt, typ := ct, confidence := confidence,
                props := sanitized, docId := docId }]

/-! ## Entity resolution cascade (extraction.py:983-1070)

`_find_or_create_entity` wraps every store lookup in one `try` whose
`except (Exception, asyncio.TimeoutError)` returns a fresh uuid with
`is_new = True` (extraction.py:1068-1070).  The fuzzy steps invoke
`Neo4jManager.find_similar_entities`, whose parameter list (after
`self`) is `name, threshold` (neo4j_manager.py:552); the call sites pass
the arguments of extraction.py:1006-1013 and 1043-1050.  Python argument
binding is modelled explicitly so that the fate of those calls is part
of the embedding rather than an assumption. -/

/-- Python positional/keyword argument binding succeeds iff there are no
excess positional arguments, every keyword names a parameter, and no
parameter receives both a positional and a keyword value. -/
def pyBindOk (params : List String) (nPos : Nat) (kw : List String) : Bool :=
  decide (nPos ≤ params.length) &&
  kw.all (fun k => params.contains k) &&
  kw.all (fun k => !((params.take nPos).contains k))

/-- Parameter list of `Neo4jManager.find_similar_entities` after `self`
(neo4j_manager.py:552). -/
def findSimilarParams : List String := ["name", "threshold"]

/-- Binding of the same-type fuzzy call
`find_similar_entities(entity_name, entity_type, threshold=...)`
(extraction.py:1006-1013): two positionals plus the keyword `threshold`. -/
def sameTypeCallBindOk : Bool := pyBindOk findSimilarParams 2 ["threshold"]

/-- Binding of the cross-type fuzzy call
`find_similar_entities(entity_name, entity_type=None, threshold=...)`
(extraction.py:1043-1050): one positional plus keywords `entity_type`
and `threshold`. -/
def crossTypeCallBindOk : Bool := pyBindOk findSimilarParams 1 ["entity_type", "threshold"]

/-- Step 3 of the cascade (extraction.py:1040-1061), reached only when
the step-2 call returned.  `best_match.get('similarity_score', 0.0)` is
`0` because `find_similar_entities` records carry no such key. -/
def crossTypeStage (store : List StoredEntity) (freshId name : String)
    (crossThreshold : ℚ) : String × Bool :=
  if crossTypeCallBindOk then
    match neo4jFindSimilar store name with
    | best :: _ =>
      let score : ℚ := 0
      if crossThreshold ≤ score then (best.id, false) else (freshId, true)
    | [] => (freshId, true)
  else
    (freshId, true)

/-- Steps 2 and 3 of the cascade (extraction.py:1005-1066), reached when
the exact lookup found nothing. -/
def fuzzyStage (store : List StoredEntity) (freshId name typ : String)
    (entityThreshold crossThreshold : ℚ) : String × Bool :=
  let sims := neo4jFindSimilar store name
  let score : ℚ := 0
  match sims with
  | best :: _ =>
    if (9 : ℚ) / 10 ≤ score then (best.id, false)
    else if entityThreshold ≤ score && best.typ == typ then (best.id, false)
    else if score < entityThreshold then
      crossTypeStage store freshId name crossThreshold
    else (freshId, true)
  | [] => crossTypeStage store freshId name crossThreshold

/-- `_find_or_create_entity` (extraction.py:983-1070), returning
`(entity_id, is_new_entity)`.  `step1Err` models the step-1 lookup
raising or timing out; the step-2 call raises `TypeError` whenever it is
reached because its arguments do not bind to `find_similar_entities`'s
parameters, and the `except` at extraction.py:1068-1070 turns every such
exception into a fresh id with `is_new = True`. -/
def findOrCreateEntity (dedupEnabled : Bool) (store : List StoredEntity)
    (step1Err : Bool) (freshId name typ : String)
    (entityThreshold crossThreshold : ℚ) : String × Bool :=
  if !dedupEnabled then (freshId, true)
  else if step1Err then (freshId, true)
  else
    match getEntityByNameAndType store name typ with
    | some e => (e.id, false)
    | none =>
      if sameTypeCallBindOk then
        fuzzyStage store freshId name typ entityThreshold crossThreshold
      else (freshId, true)

/-- One iteration of the entity loop of
`_parse_gemini_response_with_type_resolution` (extraction.py:1109-1152)
combined with its persistence in `save_to_neo4j`
(extraction.py:1304-1318): an `Entity` object is built and written only
when `_find_or_create_entity` reported a new entity; a reused entity
leaves the store untouched. -/
def processEntityCandidate (dedupEnabled : Bool) (store : List StoredEntity)
    (step1Err : Bool) (freshId docId name typ : String)
    (props : List (String × String)) (confidence : ℚ)
    (entityThreshold crossThreshold : ℚ) : List StoredEntity :=
  let r := findOrCreateEntity dedupEnabled store step1Err freshId name typ
      entityThreshold crossThreshold
  if r.2 then createEntityDb store r.1 name typ docId props confidence
  else store

/-! ## Relationship deduplication (extraction.py:1172-1198)

The duplicate check calls `self.neo4j_manager.find_existing_relationship`
(extraction.py:1177).  `Neo4jManager` defines no method of that name, so
the attribute access raises `AttributeError`; the `except` at
extraction.py:1182-1183 swallows it and `existing_relationship` stays
`None`. -/

/-- Whether `Neo4jManager` has a `find_existing_relationship` method: it
does not (no such `def` anywhere in neo4j_manager.py). -/
def neo4jHasFindExistingRel : Bool := false

/-- The duplicate check of extraction.py:1172-1187: `None` when dedup is
disabled, and also `None` when the check raises `AttributeError`. -/
def relDedupCheck (dedupEnabled : Bool) (edges : List StoredEdge)
    (src tgt relType : String) : Option StoredEdge :=
  if dedupEnabled then
    if neo4jHasFindExistingRel then
      edges.find? (fun e => e.src == src && e.tgt == tgt && e.typ == cleanRelType relType)
    else none
  else none

/-- One relationship candidate through the pipeline: the duplicate check
of extraction.py:1172-1187 (skip when an existing edge is reported),
otherwise persistence via `create_relationship`
(extraction.py:1320-1335, neo4j_manager.py:230-284). -/
def processRelCandidate (dedupEnabled : Bool) (edges : List StoredEdge)
    (src tgt relType docId : String) (props : List (String × String))
    (confidence : ℚ) : List StoredEdge :=
  match relDedupCheck dedupEnabled edges src tgt relType with
  | some _ => edges
  | none => createRelationshipDb edges src tgt relType docId props confidence

/-! ## Graph merge (coreference_resolver.py:316-350)

`_merge_entities` runs three Cypher statements: transfer all outgoing
edges of the source node, transfer all incoming edges, delete the source
node.  Both `CREATE` clauses hard-code the relationship label
`RELATIONSHIP`, copy the original edge's properties and set
`merged_from`; the only `WHERE` guard compares the source node with the
target node, i.e. it holds exactly when the two ids differ. -/

/-- A graph edge for the merge model.  `mergedFrom` mirrors the
`merged_from` property set by the transfer queries. -/
structure GEdge where
  src : String
  tgt : String
  typ : String
  props : List (String × String)
  mergedFrom : Option String
deriving DecidableEq, Repr

/-- A graph: node ids (unique) and edges. -/
structure Graph where
  nodes : List String
  edges : List GEdge
deriving DecidableEq, Repr

/-- First transfer query (coreference_resolver.py:321-328): every edge
out of the source node is recreated from the target node with label
`RELATIONSHIP`, the original properties and `merged_from = source_id`,
and the original edge deleted.  Runs only when both nodes match and
`source <> new_source` holds. -/
def mergeOutgoingPass (edges : List GEdge) (sourceId targetId : String)
    (active : Bool) : List GEdge :=
  if active then
    edges.filter (fun e => e.src != sourceId) ++
      (edges.filter (fun e => e.src == sourceId)).map (fun e =>
        { src := targetId, tgt := e.tgt, typ := "RELATIONSHIP",
          props := e.props, mergedFrom := some sourceId })
  else edges

/-- Second transfer query (coreference_resolver.py:331-338): every edge
into the source node is recreated towards the target node, same label,
properties and `merged_from` tag. -/
def mergeIncomingPass (edges : List GEdge) (sourceId targetId : String)
    (active : Bool) : List GEdge :=
  if active then
    edges.filter (fun e => e.tgt != sourceId) ++
      (edges.filter (fun e => e.tgt == sourceId)).map (fun e =>
        { src := e.src, tgt := targetId, typ := "RELATIONSHIP",
          props := e.props, mergedFrom := some sourceId })
  else edges

/-- `CoreferenceResolver._merge_entities` (coreference_resolver.py:316-350):
the two transfer passes (active when both nodes exist and the ids
differ, the `WHERE source <> new_source` / `WHERE source <> new_target`
guards) followed by deletion of the source node. -/
def mergeEntities (g : Graph) (sourceId targetId : String) : Graph :=
  let active := g.nodes.contains sourceId && g.nodes.contains targetId &&
    sourceId != targetId
  let e1 := mergeOutgoingPass g.edges sourceId targetId active
  let e2 := mergeIncomingPass e1 sourceId targetId active
  { nodes := g.nodes.filter (fun n => n != sourceId), edges := e2 }

/-- Image of an edge under the merge claimed by the spec for C2: same
relationship type and properties, endpoints substituted. -/
def specMergeImage (e : GEdge) (sourceId targetId : String) : GEdge :=
  { src := if e.src = sourceId then targetId else e.src,
    tgt := if e.tgt = sourceId then targetId else e.tgt,
    typ := e.typ, props := e.props, mergedFrom := some sourceId }

/-- The merge contract claimed by C2, stated over an input graph, the two
ids and the result graph: every edge incident to the source is recreated
as an equivalent edge with the same relationship type and properties
(endpoints substituted, tagged `mergedFrom`), edges that would become
self-loops on the target are skipped, original edges are removed, and
the source node is deleted. -/
def specMergeClaim (g : Graph) (sourceId targetId : String) (g' : Graph) : Prop :=
  (∀ e ∈ g.edges, (e.src = sourceId ∨ e.tgt = sourceId) →
    (specMergeImage e sourceId targetId).src ≠ (specMergeImage e sourceId targetId).tgt →
    specMergeImage e sourceId targetId ∈ g'.edges) ∧
  (∀ e ∈ g'.edges, e.src ≠ sourceId ∧ e.tgt ≠ sourceId) ∧
  (∀ e ∈ g'.edges, e.mergedFrom = some sourceId → ¬(e.src = targetId ∧ e.tgt = targetId)) ∧
  sourceId ∉ g'.nodes

/-- Image of an edge under the merge as the code actually performs it:
endpoints substituted, type forced to `RELATIONSHIP`, properties kept,
`merged_from` set. -/
def codeMergeImage (e : GEdge) (sourceId targetId : String) : GEdge :=
  { src := if e.src = sourceId then targetId else e.src,
    tgt := if e.tgt = sourceId then targetId else e.tgt,
    typ := "RELATIONSHIP", props := e.props, mergedFrom := some sourceId }

/-! ## Coreference resolution (coreference_resolver.py:13-238)

Entities are the pydantic `Entity` records of models.py; timestamps are
opaque naturals, properties association lists, confidences rationals. -/

/-- An extraction `Entity` (models.py:40-50, the fields the resolver
reads and writes). -/
structure PyEntity where
  id : String
  name : String
  entityType : String
  documentId : String
  props : List (String × String)
  confidence : ℚ
  createdAt : Nat
deriving DecidableEq, Repr

/-- `self.pronoun_mappings` (coreference_resolver.py:20-51), in source
order. -/
def pronounMappings : List (String × String) :=
  [("we", "ORGANIZATION"), ("us", "ORGANIZATION"), ("our", "ORGANIZATION"),
   ("ourselves", "ORGANIZATION"),
   ("you", "USER"), ("your", "USER"), ("yours", "USER"), ("yourself", "USER"),
   ("yourselves", "USER"),
   ("they", "CONTEXTUAL"), ("them", "CONTEXTUAL"), ("their", "CONTEXTUAL"),
   ("theirs", "CONTEXTUAL"), ("themselves", "CONTEXTUAL"), ("it", "CONTEXTUAL"),
   ("its", "CONTEXTUAL"), ("itself", "CONTEXTUAL"),
   ("he", "PERSON"), ("him", "PERSON"), ("his", "PERSON"), ("himself", "PERSON"),
   ("she", "PERSON"), ("her", "PERSON"), ("hers", "PERSON"), ("herself", "PERSON")]

/-- `self.generic_patterns` (coreference_resolver.py:54-82), in source
order. -/
def genericPatterns : List (String × String) :=
  [("the company", "ORGANIZATION"), ("the organization", "ORGANIZATION"),
   ("the business", "ORGANIZATION"), ("the entity", "ORGANIZATION"),
   ("the platform", "SERVICE"), ("the service", "SERVICE"),
   ("the services", "SERVICE"), ("the system", "SERVICE"),
   ("the application", "SERVICE"), ("the app", "SERVICE"),
   ("the software", "SERVICE"), ("the product", "SERVICE"),
   ("the user", "USER"), ("the users", "USER"), ("the customer", "USER"),
   ("the customers", "USER"), ("the individual", "USER"), ("the person", "USER"),
   ("the policy", "POLICY_DOCUMENT"), ("this policy", "POLICY_DOCUMENT"),
   ("the document", "POLICY_DOCUMENT"), ("the agreement", "POLICY_DOCUMENT"),
   ("the terms", "POLICY_DOCUMENT"),
   ("the data", "DATA"), ("the information", "DATA"),
   ("such information", "DATA"), ("such data", "DATA")]

/-- `self.context_mappings` (coreference_resolver.py:85-100). -/
def contextMappings : List (String × List (String × List String)) :=
  [("privacy_policy",
    [("ORGANIZATION", ["OpenAI", "OpenAI, Inc."]),
     ("SERVICE", ["ChatGPT", "OpenAI Services", "AI Services"]),
     ("USER", ["User", "Users", "Data Subject"]),
     ("POLICY_DOCUMENT", ["Privacy Policy", "ChatGPT Privacy Policy"]),
     ("DATA", ["Personal Data", "User Data", "Personal Information"])]),
   ("terms_of_service",
    [("ORGANIZATION", ["OpenAI", "Company"]),
     ("SERVICE", ["Services", "Platform", "ChatGPT"]),
     ("USER", ["User", "Customer", "You"]),
     ("POLICY_DOCUMENT", ["Terms of Service", "Agreement"]),
     ("DATA", ["Content", "Data", "Information"])])]

/-- `CoreferenceResolver._check_generic_reference`
(coreference_resolver.py:226-234): first pattern equal to the name, or —
for multi-word patterns — contained in it. -/
def checkGeneric (entityName : String) : Option String :=
  let n := pyStrip (lowerStr entityName)
  genericPatterns.findSome? fun pt =>
    if pt.1 == n || ((pySplit pt.1).length > 1 && strIn pt.1 n) then some pt.2
    else none

/-- Category assigned to a candidate by `_identify_main_entities`
(coreference_resolver.py:150-185): pronouns and generic references are
skipped, then the keyword/type `if/elif` chain applies; `none` when no
branch fires. -/
def entCategory (e : PyEntity) : Option String :=
  let nameStripped := pyStrip e.name
  let nl := lowerStr nameStripped
  let tl := lowerStr e.entityType
  if (List.lookup nl pronounMappings).isSome || (checkGeneric nl).isSome then none
  else if strIn "openai" nl || strIn "company" nl || strIn "organization" nl then
    some "ORGANIZATION"
  else if strIn "chatgpt" nl || strIn "service" nl || strIn "platform" nl ||
      strIn "api" nl then
    some "SERVICE"
  else if (strIn "user" nl || strIn "customer" nl || strIn "individual" nl) &&
      strIn "user" tl then
    some "USER"
  else if strIn "policy" nl || strIn "terms" nl || strIn "agreement" nl ||
      strIn "document" nl then
    some "POLICY_DOCUMENT"
  else if (strIn "data" nl || strIn "information" nl) &&
      10 < nameStripped.data.length then
    some "DATA"
  else if strIn "person" tl && (pySplit nameStripped).length ≤ 3 then
    some "PERSON"
  else none

/-- `_identify_main_entities` as a lookup: the per-category lists keep
the input order, matching the loop's appends. -/
def mainsOf (entities : List PyEntity) : String → List PyEntity :=
  fun cat => entities.filter (fun e => entCategory e == some cat)

/-- The resolved entity built at coreference_resolver.py:199-207 and
213-221: the antecedent's identity with the referring candidate's
document id, properties and creation time, and the maximum of the two
confidences. -/
def resolvedCopy (ent p : PyEntity) : PyEntity :=
  { id := ent.id, name := ent.name, entityType := ent.entityType,
    documentId := p.documentId, props := p.props,
    confidence := max ent.confidence p.confidence, createdAt := p.createdAt }

/-- `CoreferenceResolver._resolve_pronoun` (coreference_resolver.py:187-224):
context-specific candidate names first (first candidate name contained in
a main entity of the category wins), then the first main entity of the
category, else `None`. -/
def resolvePronoun (p : PyEntity) (ptype : String)
    (mains : String → List PyEntity) (ctx : String) : Option PyEntity :=
  let ctxHit : Option PyEntity :=
    match List.lookup ctx contextMappings with
    | some cmap =>
      match List.lookup ptype cmap with
      | some candNames =>
        candNames.findSome? fun cand =>
          (mains ptype).find? fun ent => strIn (lowerStr cand) (lowerStr ent.name)
      | none => none
    | none => none
  match ctxHit with
  | some ent => some (resolvedCopy ent p)
  | none =>
    match mains ptype with
    | [] => none
    | best :: _ => some (resolvedCopy best p)

/-- One iteration of the loop of `resolve_coreferences_in_entities`
(coreference_resolver.py:118-145): pronoun resolution, then generic
resolution (`_resolve_generic_reference` just delegates to
`_resolve_pronoun`, coreference_resolver.py:236-238), and otherwise the
entity is kept unchanged. -/
def resolveOne (mains : String → List PyEntity) (ctx : String) (e : PyEntity) :
    PyEntity :=
  let en := lowerStr (pyStrip e.name)
  let pronounHit : Option PyEntity :=
    match List.lookup en pronounMappings with
    | some ptype => resolvePronoun e ptype mains ctx
    | none => none
  match pronounHit with
  | some r => r
  | none =>
    match checkGeneric en with
    | some gtype =>
      match resolvePronoun e gtype mains ctx with
      | some r => r
      | none => e
    | none => e

/-- `CoreferenceResolver.resolve_coreferences_in_entities`
(coreference_resolver.py:102-148): early return on an empty input, else
main-entity identification followed by the per-candidate loop, which
appends exactly one entity per candidate. -/
def resolveCoref (entities : List PyEntity) (ctx : String) : List PyEntity :=
  if entities.isEmpty then entities
  else entities.map (resolveOne (mainsOf entities) ctx)

/-! ## Helper lemmas -/

/-- A list self-compared has a full-length common prefix. -/
lemma commonLen_self (l : List Char) : commonLen l l = l.length := by
  induction l with
  | nil => rfl
  | cons a t ih => simp [commonLen, ih]

/-- The fold of `flmStep` returns its seed or one of the candidates. -/
lemma foldl_flmStep_mem (l : List (Nat × Nat × Nat)) (b : Nat × Nat × Nat) :
    l.foldl flmStep b = b ∨ l.foldl flmStep b ∈ l := by
  induction l generalizing b with
  | nil => exact Or.inl rfl
  | cons c t ih =>
    rcases ih (flmStep b c) with h | h
    · by_cases hbc : b.2.2 < c.2.2
      · right
        rw [List.foldl_cons, h, flmStep, if_pos hbc]
        exact List.mem_cons_self _ _
      · left
        rw [List.foldl_cons, h, flmStep, if_neg hbc]
    · right
      rw [List.foldl_cons]
      exact List.mem_cons_of_mem _ h

/-- The fold of `flmStep` never decreases the block size of the seed. -/
lemma foldl_flmStep_ge_init (l : List (Nat × Nat × Nat)) (b : Nat × Nat × Nat) :
    b.2.2 ≤ (l.foldl flmStep b).2.2 := by
  induction l generalizing b with
  | nil => exact le_refl _
  | cons c t ih =>
    rw [List.foldl_cons]
    refine le_trans ?_ (ih (flmStep b c))
    by_cases hbc : b.2.2 < c.2.2
    · rw [flmStep, if_pos hbc]; exact le_of_lt hbc
    · rw [flmStep, if_neg hbc]

/-- The fold of `flmStep` dominates the block size of every candidate. -/
lemma foldl_flmStep_ge_mem (l : List (Nat × Nat × Nat)) :
    ∀ (b x : Nat × Nat × Nat), x ∈ l → x.2.2 ≤ (l.foldl flmStep b).2.2 := by
  induction l with
  | nil => intro b x hx; cases hx
  | cons c t ih =>
    intro b x hx
    rw [List.foldl_cons]
    rcases List.mem_cons.mp hx with h | h
    · subst h
      refine le_trans ?_ (foldl_flmStep_ge_init t (flmStep b x))
      simp only [flmStep]
      by_cases hbc : b.2.2 < x.2.2
      · rw [if_pos hbc]
      · rw [if_neg hbc]; exact le_of_not_lt hbc
    · exact ih (flmStep b c) x h

/-- The block size at any start pair is bounded by the window size. -/
lemma blockLenAt_le_sub (a b : List Char) (i j ahi bhi : Nat) :
    blockLenAt a b i j ahi bhi ≤ ahi - i := by
  unfold blockLenAt
  exact le_trans (min_le_right _ _) (min_le_left _ _)

/-- On a self-comparison over the full window, the longest matching block
is the whole list. -/
lemma findLongestBlock_self (a : List Char) (hn : 0 < a.length) :
    findLongestBlock a a 0 a.length 0 a.length = (0, 0, a.length) := by
  have hresult : findLongestBlock a a 0 a.length 0 a.length =
      ((flmCandidates 0 a.length 0 a.length).map
        (fun p => (p.1, p.2, blockLenAt a a p.1 p.2 a.length a.length))).foldl
        flmStep (0, 0, 0) := rfl
  set L := ((flmCandidates 0 a.length 0 a.length).map
    (fun p => (p.1, p.2, blockLenAt a a p.1 p.2 a.length a.length))) with hL
  have hmem00 : ((0 : Nat), (0 : Nat), a.length) ∈ L := by
    rw [hL]
    refine List.mem_map.mpr ⟨(0, 0), ?_, ?_⟩
    · unfold flmCandidates
      refine List.mem_flatMap.mpr ⟨0, ?_, ?_⟩
      · simp [List.mem_range'_1]
        omega
      · refine List.mem_map.mpr ⟨0, ?_, rfl⟩
        simp [List.mem_range'_1]
        omega
    · simp [blockLenAt, commonLen_self]
  have hub : ∀ c ∈ L, c.2.2 ≤ a.length := by
    intro c hc
    rw [hL] at hc
    rcases List.mem_map.mp hc with ⟨p, _, hgp⟩
    rw [← hgp]
    exact le_trans (blockLenAt_le_sub a a p.1 p.2 a.length a.length) (Nat.sub_le _ _)
  rw [hresult]
  have hge := foldl_flmStep_ge_mem L (0, 0, 0) _ hmem00
  have h1 : (L.foldl flmStep (0, 0, 0)).2.2 ≤ a.length := by
    rcases foldl_flmStep_mem L (0, 0, 0) with h | h
    · rw [h]; exact Nat.zero_le _
    · exact hub _ h
  have hk : (L.foldl flmStep (0, 0, 0)).2.2 = a.length := le_antisymm h1 hge
  rcases foldl_flmStep_mem L (0, 0, 0) with h | h
  · exfalso
    rw [h] at hk
    simp at hk
    omega
  · rcases List.mem_map.mp h with ⟨p, _, hgp⟩
    have hki : (L.foldl flmStep (0, 0, 0)).2.2 ≤ a.length - p.1 := by
      rw [← hgp]
      exact blockLenAt_le_sub a a p.1 p.2 a.length a.length
    have hkj : (L.foldl flmStep (0, 0, 0)).2.2 ≤ a.length - p.2 := by
      rw [← hgp]
      unfold blockLenAt
      exact le_trans (min_le_right _ _) (min_le_right _ _)
    have hp1 : p.1 = 0 := by omega
    have hp2 : p.2 = 0 := by omega
    rw [← hgp, hp1, hp2]
    have hbl : blockLenAt a a 0 0 a.length a.length = a.length := by
      simp [blockLenAt, commonLen_self]
    rw [hbl]

/-- A window that is empty on the `a` side contributes no matches. -/
lemma matchTotal_empty_a (a b : List Char) (f alo blo bhi : Nat) :
    matchTotal a b (f + 1) alo alo blo bhi = 0 := by
  have hcands : flmCandidates alo alo blo bhi = [] := by
    unfold flmCandidates
    simp
  have hflb : findLongestBlock a b alo alo blo bhi = (alo, blo, 0) := by
    unfold findLongestBlock
    rw [hcands]
    rfl
  unfold matchTotal
  rw [hflb]
  simp

/-- difflib ratio of a string against itself is 1. -/
lemma ratioQ_self (s : String) : ratioQ s s = 1 := by
  unfold ratioQ
  by_cases h0 : s.data.length = 0
  · simp [h0]
  · have hn : 0 < s.data.length := Nat.pos_of_ne_zero h0
    have hcond : ¬(s.data.length + s.data.length = 0) := by omega
    simp only [hcond, if_false]
    have hmt : matchTotal s.data s.data (s.data.length + s.data.length + 1)
        0 s.data.length 0 s.data.length = s.data.length := by
      unfold matchTotal
      rw [findLongestBlock_self s.data hn]
      simp only [Nat.zero_add, if_neg h0]
      obtain ⟨m, hm⟩ : ∃ m, s.data.length + s.data.length = m + 1 :=
        ⟨s.data.length + s.data.length - 1, by omega⟩
      rw [hm, matchTotal_empty_a, matchTotal_empty_a]
      omega
    rw [hmt]
    have hden : ((s.data.length : ℚ) + (s.data.length : ℚ)) ≠ 0 := by
      exact_mod_cast hcond
    rw [div_eq_one_iff_eq hden]
    ring

/-- Inserting into the similarity ranking adds exactly one element. -/
lemma insertDescBySim_length (x : String × ℚ) (l : List (String × ℚ)) :
    (insertDescBySim x l).length = l.length + 1 := by
  induction l with
  | nil => rfl
  | cons y ys ih =>
    unfold insertDescBySim
    by_cases h : y.2 < x.2
    · rw [if_pos h]; rfl
    · rw [if_neg h]
      simp only [List.length_cons, ih]

/-- The similarity ranking keeps all its elements. -/
lemma foldl_insertDescBySim_length (l : List (String × ℚ)) :
    ∀ acc : List (String × ℚ),
      (l.foldl (fun acc x => insertDescBySim x acc) acc).length = acc.length + l.length := by
  induction l with
  | nil => intro acc; rfl
  | cons x xs ih =>
    intro acc
    rw [List.foldl_cons, ih (insertDescBySim x acc), insertDescBySim_length]
    simp only [List.length_cons]
    omega

/-- Sorting the similarity ranking preserves its length. -/
lemma sortDescBySim_length (l : List (String × ℚ)) :
    (sortDescBySim l).length = l.length := by
  unfold sortDescBySim
  rw [foldl_insertDescBySim_length]
  simp

/-- Registering a proposed label through `resolve_entity_type` never
introduces a pair of case-insensitively identical labels: a cached label
with the same lower-casing would score similarity 1 — at least any
threshold ≤ 1 — so the similar-type branch would return it instead of
registering the proposal. -/
lemma resolveEntityType_noCaselessDup (cache : List String) (threshold : ℚ)
    (p : String) (hθ : threshold ≤ 1) (h : noCaselessDup cache = true) :
    noCaselessDup (resolveEntityType cache threshold p).2 = true := by
  cases hfind : cache.find? (fun e => lowerStr e == pyStrip (lowerStr p)) with
  | some ex =>
    have hres : (resolveEntityType cache threshold p).2 = cache := by
      simp [resolveEntityType, hfind]
    rw [hres]; exact h
  | none =>
    cases hsim : findSimilarTypes p cache threshold with
    | cons hd tl =>
      have hres : (resolveEntityType cache threshold p).2 = cache := by
        simp [resolveEntityType, hfind, hsim]
      rw [hres]; exact h
    | nil =>
      have hres : (resolveEntityType cache threshold p).2 = p :: cache := by
        simp [resolveEntityType, hfind, hsim]
      rw [hres]
      unfold noCaselessDup
      rw [Bool.and_eq_true]
      refine ⟨?_, h⟩
      rw [List.all_eq_true]
      intro y hy
      by_contra hne
      have heq : lowerStr y = lowerStr p := by
        simpa using hne
      have hpred : threshold ≤ calculateSimilarity (lowerStr p) (lowerStr y) := by
        unfold calculateSimilarity
        rw [heq]
        rw [ratioQ_self]
        exact hθ
      have hmem : y ∈ cache.filter
          (fun e => decide (threshold ≤ calculateSimilarity (lowerStr p) (lowerStr e))) := by
        rw [List.mem_filter]
        exact ⟨hy, by simpa using hpred⟩
      have hlen : 0 < (findSimilarTypes p cache threshold).length := by
        unfold findSimilarTypes
        rw [sortDescBySim_length, List.length_map]
        exact List.length_pos.mpr (List.ne_nil_of_mem hmem)
      rw [hsim] at hlen
      simp at hlen

/-- An edge that does not leave the source survives the outgoing pass. -/
lemma mergeOut_mem_keep {edges : List GEdge} {s t : String} {e : GEdge}
    (he : e ∈ edges) (hsrc : e.src ≠ s) : e ∈ mergeOutgoingPass edges s t true := by
  unfold mergeOutgoingPass
  rw [if_pos rfl]
  refine List.mem_append_left _ ?_
  rw [List.mem_filter]
  exact ⟨he, by simpa using hsrc⟩

/-- An edge out of the source is rewired by the outgoing pass. -/
lemma mergeOut_mem_moved {edges : List GEdge} {s t : String} {e : GEdge}
    (he : e ∈ edges) (hsrc : e.src = s) :
    ({ src := t, tgt := e.tgt, typ := "RELATIONSHIP", props := e.props,
       mergedFrom := some s } : GEdge) ∈ mergeOutgoingPass edges s t true := by
  unfold mergeOutgoingPass
  rw [if_pos rfl]
  refine List.mem_append_right _ ?_
  refine List.mem_map.mpr ⟨e, ?_, rfl⟩
  rw [List.mem_filter]
  exact ⟨he, by simpa using hsrc⟩

/-- After the outgoing pass no edge leaves the source (the rewired ones
leave the target, which is a different node). -/
lemma mergeOut_src {edges : List GEdge} {s t : String} {x : GEdge}
    (hts : t ≠ s) (hx : x ∈ mergeOutgoingPass edges s t true) : x.src ≠ s := by
  unfold mergeOutgoingPass at hx
  rw [if_pos rfl] at hx
  rcases List.mem_append.mp hx with h | h
  · rw [List.mem_filter] at h
    simpa using h.2
  · rcases List.mem_map.mp h with ⟨e, _, hfe⟩
    rw [← hfe]
    exact hts

/-- The outgoing pass preserves the number of edges. -/
lemma mergeOut_length (edges : List GEdge) (s t : String) :
    (mergeOutgoingPass edges s t true).length = edges.length := by
  unfold mergeOutgoingPass
  rw [if_pos rfl]
  rw [List.length_append, List.length_map]
  have h := List.length_eq_length_filter_add (l := edges) (fun e => e.src == s)
  simp only [bne] at *
  omega

/-- An edge that does not enter the source survives the incoming pass. -/
lemma mergeIn_mem_keep {edges : List GEdge} {s t : String} {e : GEdge}
    (he : e ∈ edges) (htgt : e.tgt ≠ s) : e ∈ mergeIncomingPass edges s t true := by
  unfold mergeIncomingPass
  rw [if_pos rfl]
  refine List.mem_append_left _ ?_
  rw [List.mem_filter]
  exact ⟨he, by simpa using htgt⟩

/-- An edge into the source is rewired by the incoming pass. -/
lemma mergeIn_mem_moved {edges : List GEdge} {s t : String} {e : GEdge}
    (he : e ∈ edges) (htgt : e.tgt = s) :
    ({ src := e.src, tgt := t, typ := "RELATIONSHIP", props := e.props,
       mergedFrom := some s } : GEdge) ∈ mergeIncomingPass edges s t true := by
  unfold mergeIncomingPass
  rw [if_pos rfl]
  refine List.mem_append_right _ ?_
  refine List.mem_map.mpr ⟨e, ?_, rfl⟩
  rw [List.mem_filter]
  exact ⟨he, by simpa using htgt⟩

/-- After the incoming pass no edge enters the source. -/
lemma mergeIn_tgt {edges : List GEdge} {s t : String} {x : GEdge}
    (hts : t ≠ s) (hx : x ∈ mergeIncomingPass edges s t true) : x.tgt ≠ s := by
  unfold mergeIncomingPass at hx
  rw [if_pos rfl] at hx
  rcases List.mem_append.mp hx with h | h
  · rw [List.mem_filter] at h
    simpa using h.2
  · rcases List.mem_map.mp h with ⟨e, _, hfe⟩
    rw [← hfe]
    exact hts

/-- The incoming pass keeps the source-avoidance of edge sources. -/
lemma mergeIn_src {edges : List GEdge} {s t : String} {x : GEdge}
    (hall : ∀ e ∈ edges, e.src ≠ s) (hx : x ∈ mergeIncomingPass edges s t true) :
    x.src ≠ s := by
  unfold mergeIncomingPass at hx
  rw [if_pos rfl] at hx
  rcases List.mem_append.mp hx with h | h
  · rw [List.mem_filter] at h
    exact hall x h.1
  · rcases List.mem_map.mp h with ⟨e, he, hfe⟩
    rw [List.mem_filter] at he
    rw [← hfe]
    exact hall e he.1

/-- The incoming pass preserves the number of edges. -/
lemma mergeIn_length (edges : List GEdge) (s t : String) :
    (mergeIncomingPass edges s t true).length = edges.length := by
  unfold mergeIncomingPass
  rw [if_pos rfl]
  rw [List.length_append, List.length_map]
  have h := List.length_eq_length_filter_add (l := edges) (fun e => e.tgt == s)
  simp only [bne] at *
  omega

/-! ## Concrete inputs for the claims -/

/-- Candidates: a main entity "OpenAI" and the second-person pronoun
"you" (typed PARTY, so it lands in no main-entity category). -/
def c1Entities : List PyEntity :=
  [⟨"1", "OpenAI", "ORGANIZATION", "doc", [], 9 / 10, 0⟩,
   ⟨"2", "you", "PARTY", "doc", [], 7 / 10, 0⟩]

/-- A graph with edges A→C (typed MANAGES, with a property) and A→B. -/
def c2Graph : Graph :=
  ⟨["A", "B", "C"],
   [⟨"A", "C", "MANAGES", [("k", "v")], none⟩, ⟨"A", "B", "KNOWS", [], none⟩]⟩

/-- A store holding a same-type entity "Acme." similar to the candidate
name "Acme" at ratio 8/9 = 0.889 ≥ 0.8. -/
def c3Store : List StoredEntity :=
  [⟨"e1", "Acme.", "ORGANIZATION", 9 / 10, [], "d0"⟩]

/-- A store holding the entity the candidate will be matched against,
with confidence 0.5 (the candidate arrives with 0.9). -/
def c4Store : List StoredEntity :=
  [⟨"e1", "OpenAI", "ORGANIZATION", 1 / 2, [], "d0"⟩]

/-- The edge store after creating (A,B,MANAGES) once, confidence 0.8. -/
def c5EdgesOnce : List StoredEdge :=
  processRelCandidate true [] "A" "B" "MANAGES" "d1" [] (4 / 5)

/-- The edge store after creating the identical edge a second time with
confidence 0.6. -/
def c5EdgesTwice : List StoredEdge :=
  processRelCandidate true c5EdgesOnce "A" "B" "MANAGES" "d2" [] (3 / 5)

/-! ## Claim theorems -/

/-- C1 (code_bug evaluation): on input `[OpenAI, you]` with context
`privacy_policy`, "you" is recognised as a pronoun (category USER), no
antecedent is found (`_resolve_pronoun` returns `None`), and the loop
then falls through to "keep original entity": the normalized output
still contains a candidate literally named "you".  The claim (and
coreference_resolver's own test, tests/test_coreference.py:139-146,
which expects "you" to disappear) says an unresolved referring candidate
is dropped and never emitted. -/
theorem c1_unresolved_pronoun_emitted :
    List.lookup "you" pronounMappings = some "USER" ∧
    resolvePronoun ⟨"2", "you", "PARTY", "doc", [], 7 / 10, 0⟩ "USER"
      (mainsOf c1Entities) "privacy_policy" = none ∧
    (resolveCoref c1Entities "privacy_policy").map PyEntity.name = ["OpenAI", "you"] ∧
    ∃ e ∈ resolveCoref c1Entities "privacy_policy", lowerStr (pyStrip e.name) = "you" := by
  decide

/-- C2 (counterexample): merging A into B on `c2Graph` violates the
claimed contract — the rewired A→C edge does not keep its MANAGES type
(it is recreated with the hard-coded label RELATIONSHIP,
coreference_resolver.py:325/335), and the A→B edge becomes a B→B
self-loop instead of being skipped. -/
theorem c2_merge_spec_violated :
    ¬ specMergeClaim c2Graph "A" "B" (mergeEntities c2Graph "A" "B") := by
  unfold specMergeClaim
  decide

/-- C3 (code_bug evaluation): the store holds a same-type entity at
similarity 8/9 ≥ 0.8 to the candidate "Acme" and there is no exact
match, yet `_find_or_create_entity` creates a brand-new entity: the
step-2 call `find_similar_entities(entity_name, entity_type,
threshold=...)` (extraction.py:1006-1013) cannot bind against the
method's `(name, threshold)` parameter list (neo4j_manager.py:552) —
`threshold` would receive both a positional and a keyword value — so
Python raises `TypeError`, and the `except` at extraction.py:1068-1070
falls through to creation. -/
theorem c3_similarity_reuse_never_happens :
    (4 / 5 : ℚ) ≤ calculateSimilarity "Acme" "Acme." ∧
    (∀ r ∈ c3Store, r.typ = "ORGANIZATION") ∧
    getEntityByNameAndType c3Store "Acme" "ORGANIZATION" = none ∧
    sameTypeCallBindOk = false ∧
    findOrCreateEntity true c3Store false "fresh-1" "Acme" "ORGANIZATION"
      (4 / 5) (19 / 20) = ("fresh-1", true) := by
  refine ⟨?_, by simp [c3Store], rfl, rfl, rfl⟩
  have hla : (lowerStr "Acme").data.length = 4 := by decide
  have hlb : (lowerStr "Acme.").data.length = 5 := by decide
  have hm : matchTotal (lowerStr "Acme").data (lowerStr "Acme.").data
      (4 + 5 + 1) 0 4 0 5 = 4 := by decide
  unfold calculateSimilarity ratioQ
  simp only [hla, hlb, hm]
  norm_num

/-- C5 (code_bug evaluation): creating the edge (A,B,MANAGES) twice with
dedup enabled leaves exactly one edge, but not the way the claim says:
the duplicate check returns nothing (the `find_existing_relationship`
method it calls does not exist on `Neo4jManager`, so the `except` at
extraction.py:1182-1183 swallows the `AttributeError`), creation is
attempted again, and the Cypher `MERGE`+`SET` overwrites the retained
edge's confidence with the second write's 0.6 instead of leaving the
first writer's 0.8 untouched. -/
theorem c5_duplicate_edge_overwrites :
    neo4jHasFindExistingRel = false ∧
    relDedupCheck true c5EdgesOnce "A" "B" "MANAGES" = none ∧
    c5EdgesOnce = [⟨"A", "B", "MANAGES", 4 / 5, [], "d1"⟩] ∧
    c5EdgesTwice = [⟨"A", "B", "MANAGES", 3 / 5, [], "d2"⟩] ∧
    (3 / 5 : ℚ) ≠ 4 / 5 :=
  ⟨rfl, rfl, rfl, rfl, by norm_num⟩

/-- C7 (counterexample): a label registered locally ("Gadget") is gone
after a refresh whose store listing is `["Person"]` — the assignment at
type_manager.py:32 replaces the cache instead of unioning into it. -/
theorem c7_refresh_not_union :
    refreshTypeCache ["Gadget"] (Except.ok ["Person"]) = ["Person"] ∧
    "Gadget" ∉ refreshTypeCache ["Gadget"] (Except.ok ["Person"]) := by
  decide

/-- C2 (amended): for distinct existing nodes, `_merge_entities` rewires
every edge incident to the source onto the target with the generic label
`RELATIONSHIP` (the original relationship type is not preserved), the
original properties and `merged_from = sourceId`; edges between source
and target become self-loops on the target rather than being skipped;
edges not touching the source are untouched; no edge is dropped (the
count is preserved) and the source node is deleted. -/
theorem c2_merge_behavior (g : Graph) (s t : String)
    (hs : s ∈ g.nodes) (ht : t ∈ g.nodes) (hst : s ≠ t) :
    (∀ e ∈ g.edges, (e.src = s ∨ e.tgt = s) →
      codeMergeImage e s t ∈ (mergeEntities g s t).edges) ∧
    (∀ e ∈ g.edges, e.src ≠ s → e.tgt ≠ s → e ∈ (mergeEntities g s t).edges) ∧
    (∀ e ∈ (mergeEntities g s t).edges, e.src ≠ s ∧ e.tgt ≠ s) ∧
    (mergeEntities g s t).edges.length = g.edges.length ∧
    s ∉ (mergeEntities g s t).nodes := by
  have hts : t ≠ s := Ne.symm hst
  have hact : (g.nodes.contains s && g.nodes.contains t && (s != t)) = true := by
    rw [Bool.and_eq_true, Bool.and_eq_true]
    exact ⟨⟨List.elem_eq_true_of_mem hs, List.elem_eq_true_of_mem ht⟩,
      by simpa using hst⟩
  have hedges : (mergeEntities g s t).edges =
      mergeIncomingPass (mergeOutgoingPass g.edges s t true) s t true := by
    simp only [mergeEntities, hact]
  have hnodes : (mergeEntities g s t).nodes = g.nodes.filter (fun n => n != s) := by
    simp only [mergeEntities]
  refine ⟨?_, ?_, ?_, ?_, ?_⟩
  · intro e he hinc
    rw [hedges]
    by_cases hsrc : e.src = s
    · by_cases htgt : e.tgt = s
      · have h1 := mergeOut_mem_moved (t := t) he hsrc
        have h2 := mergeIn_mem_moved (t := t) h1 htgt
        simpa [codeMergeImage, hsrc, htgt] using h2
      · have h1 := mergeOut_mem_moved (t := t) he hsrc
        have h2 := mergeIn_mem_keep (t := t) h1 htgt
        simpa [codeMergeImage, hsrc, htgt] using h2
    · have htgt : e.tgt = s := by
        rcases hinc with h | h
        · exact absurd h hsrc
        · exact h
      have h1 := mergeOut_mem_keep (t := t) he hsrc
      have h2 := mergeIn_mem_moved (t := t) h1 htgt
      simpa [codeMergeImage, hsrc, htgt] using h2
  · intro e he hs1 ht1
    rw [hedges]
    exact mergeIn_mem_keep (mergeOut_mem_keep he hs1) ht1
  · intro e he
    rw [hedges] at he
    exact ⟨mergeIn_src (fun x hx => mergeOut_src hts hx) he, mergeIn_tgt hts he⟩
  · rw [hedges, mergeIn_length, mergeOut_length]
  · rw [hnodes]
    intro hmem
    rw [List.mem_filter] at hmem
    simpa using hmem.2

/-- Witness for `c2_merge_behavior` at the concrete graph `c2Graph`. -/
theorem c2_merge_behavior_witness :
    ("A" ∈ c2Graph.nodes ∧ "B" ∈ c2Graph.nodes ∧ "A" ≠ "B") ∧
    ((∀ e ∈ c2Graph.edges, (e.src = "A" ∨ e.tgt = "A") →
      codeMergeImage e "A" "B" ∈ (mergeEntities c2Graph "A" "B").edges) ∧
    (∀ e ∈ c2Graph.edges, e.src ≠ "A" → e.tgt ≠ "A" →
      e ∈ (mergeEntities c2Graph "A" "B").edges) ∧
    (∀ e ∈ (mergeEntities c2Graph "A" "B").edges, e.src ≠ "A" ∧ e.tgt ≠ "A") ∧
    (mergeEntities c2Graph "A" "B").edges.length = c2Graph.edges.length ∧
    "A" ∉ (mergeEntities c2Graph "A" "B").nodes) :=
  ⟨⟨by decide, by decide, by decide⟩,
   c2_merge_behavior c2Graph "A" "B" (by decide) (by decide) (by decide)⟩

/-- C4 (counterexample): reusing "OpenAI" (exact match, existing
confidence 0.5, candidate confidence 0.9) leaves the store byte-for-byte
unchanged — the stored confidence stays 0.5 and is not raised to
max(0.5, 0.9), no property or alias merge happens (extraction.py
only logs the reuse and builds no `Entity` object, 1129-1148). -/
theorem c4_reuse_updates_nothing :
    findOrCreateEntity true c4Store false "fresh" "OpenAI" "ORGANIZATION"
      (4 / 5) (19 / 20) = ("e1", false) ∧
    processEntityCandidate true c4Store false "fresh" "d1" "OpenAI" "ORGANIZATION"
      [] (9 / 10) (4 / 5) (19 / 20) = c4Store ∧
    (∀ r ∈ c4Store, r.confidence = 1 / 2) ∧
    (1 / 2 : ℚ) ≠ max (1 / 2 : ℚ) (9 / 10) :=
  ⟨rfl, rfl, by simp [c4Store], by norm_num⟩

/-- C4 (amended): whenever `_find_or_create_entity` reports a reuse, the
candidate-processing step leaves the persisted store exactly as it was:
no confidence bump, property backfill or alias union is performed. -/
theorem c4_reuse_leaves_store_unchanged (dedupEnabled : Bool)
    (store : List StoredEntity) (step1Err : Bool)
    (freshId docId name typ : String) (props : List (String × String))
    (confidence entityThreshold crossThreshold : ℚ)
    (h : (findOrCreateEntity dedupEnabled store step1Err freshId name typ
      entityThreshold crossThreshold).2 = false) :
    processEntityCandidate dedupEnabled store step1Err freshId docId name typ
      props confidence entityThreshold crossThreshold = store := by
  simp [processEntityCandidate, h]

/-- Witness for `c4_reuse_leaves_store_unchanged` at `c4Store`. -/
theorem c4_reuse_leaves_store_unchanged_witness :
    (findOrCreateEntity true c4Store false "fresh" "OpenAI" "ORGANIZATION"
      (4 / 5) (19 / 20)).2 = false ∧
    processEntityCandidate true c4Store false "fresh" "d1" "OpenAI" "ORGANIZATION"
      [] (9 / 10) (4 / 5) (19 / 20) = c4Store :=
  ⟨rfl, c4_reuse_leaves_store_unchanged true c4Store false "fresh" "d1" "OpenAI"
    "ORGANIZATION" [] (9 / 10) (4 / 5) (19 / 20) rfl⟩

/-- C6: resolving the same `(name, type)` pair twice with dedup enabled,
the first resolution's outcome having been persisted by the candidate
processing step, returns the same canonical id both times and reports
`is_new = false` the second time.  The only hypothesis besides working
lookups is that the fresh id of the first call is not already taken in
the store (uuid4 freshness). -/
theorem c6_find_or_create_idempotent (store : List StoredEntity)
    (freshId1 freshId2 docId name typ : String) (props : List (String × String))
    (conf θe θx θe2 θx2 : ℚ)
    (hfresh : ∀ r ∈ store, r.id ≠ freshId1) :
    findOrCreateEntity true
      (processEntityCandidate true store false freshId1 docId name typ props conf θe θx)
      false freshId2 name typ θe2 θx2
      = ((findOrCreateEntity true store false freshId1 name typ θe θx).1, false) := by
  have hbind : sameTypeCallBindOk = false := rfl
  cases hex : getEntityByNameAndType store name typ with
  | some e =>
    have h1 : findOrCreateEntity true store false freshId1 name typ θe θx
        = (e.id, false) := by
      simp [findOrCreateEntity, hex]
    have hproc : processEntityCandidate true store false freshId1 docId name typ
        props conf θe θx = store := by
      simp [processEntityCandidate, h1]
    rw [hproc, h1]
    simp [findOrCreateEntity, hex]
  | none =>
    have h1 : findOrCreateEntity true store false freshId1 name typ θe θx
        = (freshId1, true) := by
      simp [findOrCreateEntity, hex, hbind]
    have hnotany : store.any (fun r => r.id == freshId1) = false := by
      rw [List.any_eq_false]
      intro r hr
      simpa using hfresh r hr
    have hproc : processEntityCandidate true store false freshId1 docId name typ
        props conf θe θx
        = store ++ [⟨freshId1, name, typ, conf,
            props.map (fun kv => (sanitizeKey kv.1, kv.2)), docId⟩] := by
      simp only [processEntityCandidate, h1, createEntityDb, hnotany]
      rfl
    rw [hproc, h1]
    have hex2 : getEntityByNameAndType
        (store ++ [⟨freshId1, name, typ, conf,
            props.map (fun kv => (sanitizeKey kv.1, kv.2)), docId⟩])
        name typ
        = some ⟨freshId1, name, typ, conf,
            props.map (fun kv => (sanitizeKey kv.1, kv.2)), docId⟩ := by
      unfold getEntityByNameAndType at hex ⊢
      rw [List.find?_append, hex]
      simp
    simp [findOrCreateEntity, hex2]

/-- Witness for `c6_find_or_create_idempotent` on the empty store. -/
theorem c6_find_or_create_idempotent_witness :
    (∀ r ∈ ([] : List StoredEntity), r.id ≠ "id1") ∧
    findOrCreateEntity true
      (processEntityCandidate true [] false "id1" "d" "OpenAI" "ORGANIZATION"
        [] (9 / 10) (4 / 5) (19 / 20))
      false "id2" "OpenAI" "ORGANIZATION" (4 / 5) (19 / 20)
      = ((findOrCreateEntity true [] false "id1" "OpenAI" "ORGANIZATION"
          (4 / 5) (19 / 20)).1, false) :=
  ⟨by simp, c6_find_or_create_idempotent [] "id1" "id2" "d" "OpenAI" "ORGANIZATION"
    [] (9 / 10) (4 / 5) (19 / 20) (4 / 5) (19 / 20) (by simp)⟩

/-- C9: a failing or timed-out store lookup inside
`_find_or_create_entity` is never propagated: if the step-1 exact lookup
raises, and likewise when it finds nothing (in which case the step-2
fuzzy call raises `TypeError`), the `except` at extraction.py:1068-1070
returns the freshly generated id with `is_new = True`. -/
theorem c9_lookup_failure_soft (store : List StoredEntity)
    (freshId name typ : String) (θe θx : ℚ) :
    findOrCreateEntity true store true freshId name typ θe θx = (freshId, true) ∧
    (getEntityByNameAndType store name typ = none →
      findOrCreateEntity true store false freshId name typ θe θx = (freshId, true)) := by
  constructor
  · rfl
  · intro h
    simp [findOrCreateEntity, h, show sameTypeCallBindOk = false from rfl]

/-- Witness for `c9_lookup_failure_soft` on the empty store. -/
theorem c9_lookup_failure_soft_witness :
    getEntityByNameAndType [] "OpenAI" "ORGANIZATION" = none ∧
    findOrCreateEntity true [] true "f1" "OpenAI" "ORGANIZATION" (4 / 5) (19 / 20)
      = ("f1", true) ∧
    findOrCreateEntity true [] false "f1" "OpenAI" "ORGANIZATION" (4 / 5) (19 / 20)
      = ("f1", true) :=
  ⟨rfl, (c9_lookup_failure_soft [] "f1" "OpenAI" "ORGANIZATION" (4 / 5) (19 / 20)).1,
   (c9_lookup_failure_soft [] "f1" "OpenAI" "ORGANIZATION" (4 / 5) (19 / 20)).2 rfl⟩

/-- C10: coreference normalization never changes the number of
candidates — every candidate contributes exactly one output entity (its
resolved antecedent or itself). -/
theorem c10_length_preserved (entities : List PyEntity) (ctx : String) :
    (resolveCoref entities ctx).length = entities.length := by
  unfold resolveCoref
  by_cases h : entities.isEmpty
  · rw [if_pos h]
  · rw [if_neg h, List.length_map]

/-- Membership in the set-of-list model: an element appears iff it is in
the input and not among the already-seen elements. -/
lemma mem_dedupKeepFirst (l : List String) :
    ∀ (seen : List String) (x : String),
      x ∈ dedupKeepFirst l seen ↔ x ∈ l ∧ x ∉ seen := by
  induction l with
  | nil => intro seen x; simp [dedupKeepFirst]
  | cons a t ih =>
    intro seen x
    unfold dedupKeepFirst
    by_cases ha : a ∈ seen
    · rw [if_pos ha, ih]
      constructor
      · rintro ⟨h1, h2⟩
        exact ⟨List.mem_cons_of_mem _ h1, h2⟩
      · rintro ⟨h1, h2⟩
        rcases List.mem_cons.mp h1 with rfl | h1
        · exact absurd ha h2
        · exact ⟨h1, h2⟩
    · rw [if_neg ha]
      constructor
      · intro hx
        rcases List.mem_cons.mp hx with rfl | hx
        · exact ⟨List.mem_cons_self _ _, ha⟩
        · rw [ih] at hx
          rcases hx with ⟨h1, h2⟩
          refine ⟨List.mem_cons_of_mem _ h1, fun hseen => h2 ?_⟩
          exact List.mem_cons_of_mem _ hseen
      · rintro ⟨h1, h2⟩
        by_cases hxa : x = a
        · rw [hxa]
          exact List.mem_cons_self _ _
        · rcases List.mem_cons.mp h1 with rfl | h1
          · exact absurd rfl hxa
          · refine List.mem_cons_of_mem _ ?_
            rw [ih]
            refine ⟨h1, fun hx => ?_⟩
            rcases List.mem_cons.mp hx with h | h
            · exact hxa h
            · exact h2 h

/-- C7 (amended): `refresh_type_cache` replaces the in-memory type cache
with exactly the backing store's listing — after a successful refresh a
label is cached iff the store listed it, regardless of what was cached
before (so locally registered labels not in the listing are lost); on a
fetch error the cache is left unchanged. -/
theorem c7_refresh_replaces :
    (∀ (cache types : List String) (x : String),
      x ∈ refreshTypeCache cache (Except.ok types) ↔ x ∈ types) ∧
    (∀ cache : List String, refreshTypeCache cache (Except.error ()) = cache) := by
  constructor
  · intro cache types x
    unfold refreshTypeCache
    rw [mem_dedupKeepFirst]
    simp
  · intro cache
    rfl

/-- C8: type resolution is case-insensitive on exact hits — `"Person"`
and `"PERSON"` against a registry caching `"person"` both resolve to the
existing `"person"` with `is_new = false` — and, for any similarity
threshold ≤ 1 (0.8 by default), `resolve_entity_type` never brings the
cache to hold two case-insensitively identical labels: a proposal whose
lower-casing matches a cached label either hits the exact check or
scores similarity 1 in the fuzzy check, so it is never registered as a
second copy. -/
theorem c8_case_insensitive_resolution :
    resolveEntityType ["person"] (4 / 5) "Person" = (("person", false), ["person"]) ∧
    resolveEntityType ["person"] (4 / 5) "PERSON" = (("person", false), ["person"]) ∧
    ∀ (cache : List String) (threshold : ℚ) (proposedType : String),
      threshold ≤ 1 → noCaselessDup cache = true →
      noCaselessDup (resolveEntityType cache threshold proposedType).2 = true :=
  ⟨by decide, by decide,
   fun cache threshold p hθ h => resolveEntityType_noCaselessDup cache threshold p hθ h⟩

/-- Witness for the quantified part of `c8_case_insensitive_resolution`. -/
theorem c8_case_insensitive_resolution_witness :
    ((4 / 5 : ℚ) ≤ 1 ∧ noCaselessDup ["robot"] = true) ∧
    noCaselessDup (resolveEntityType ["robot"] (4 / 5) "Widget").2 = true :=
  ⟨⟨by norm_num, by decide⟩,
   c8_case_insensitive_resolution.2.2 ["robot"] (4 / 5) "Widget" (by norm_num) (by decide)⟩
